import Mathlib

/-!
Verification of the BlenderGPT add-on (`__init__.py`).

The add-on is a thin chat-to-code pipeline: a send operator builds a prompt
from a system prompt, the chat history and the user's input, calls the LLM,
extracts the first fenced code block from the reply, appends the turn to the
chat history and executes the extracted code; auxiliary operators delete a
history entry, clear the history, and test/persist the API credentials.

The helper `generate_blender_code` lives in `utilities.py`, which is not part
of the snapshot; its response parsing and message-list construction are
modelled from the specification and marked as such.  Everything else is a
shallow embedding of `__init__.py`: Blender scene properties become fields of
an explicit state record, `self.report` calls become an output list of
reports, and the OpenAI client and Python `exec` become function parameters.
-/

/-- A chat turn as stored in `gpt4_chat_history`: the source sets `type`
(`'user'` / `'assistant'`) and `content` on each added element. -/
structure ChatMessage where
  type : String
  content : String
deriving DecidableEq, Repr

/-- The backtick character, written by code point to keep it out of the code. -/
def backtick : Char := Char.ofNat 96

/-- Does the character list start with a triple-backtick fence? -/
def startsWithFence : List Char → Bool
  | a :: b :: c :: _ => a = backtick && b = backtick && c = backtick
  | _ => false

/-- Split a character list at the first triple-backtick fence: returns the
text before the fence and the text after it, or `none` when no fence occurs. -/
def splitAtFence : List Char → Option (List Char × List Char)
  | [] => none
  | a :: rest =>
    if startsWithFence (a :: rest) then some ([], (a :: rest).drop 3)
    else
      match splitAtFence rest with
      | some (pre, post) => some (a :: pre, post)
      | none => none

/-- Whether a character list contains a triple-backtick fence at all. -/
def containsFence (l : List Char) : Bool := (splitAtFence l).isSome

/-- The first line of a character list (up to, not including, a newline). -/
def firstLine (l : List Char) : List Char := l.takeWhile (fun c => c ≠ '\n')

/-- Everything from the first newline on (the newline included). -/
def afterFirstLine (l : List Char) : List Char := l.dropWhile (fun c => c ≠ '\n')

/-- Does the block body start with a language tag line (a non-empty purely
alphabetic first line, such as `python`, followed by more text)? -/
def hasLangTag (l : List Char) : Bool :=
  decide (firstLine l ≠ []) && (firstLine l).all Char.isAlpha
    && decide (afterFirstLine l ≠ [])

/-- Strip the optional leading language tag line from a fenced block body. -/
def stripLangTag (l : List Char) : List Char :=
  if hasLangTag l then (afterFirstLine l).drop 1 else l

/-- Modelled from the spec: the response parsing of `generate_blender_code`
(in `utilities.py`, absent from the snapshot) locates the first fenced code
block — delimited by triple backticks, with an optional leading language tag
such as `python` — and returns its inner text with the backticks and the tag
stripped; it returns nothing when no fenced block is found. -/
def extractCode (response : List Char) : Option (List Char) :=
  match splitAtFence response with
  | none => none
  | some (_, afterOpen) =>
    match splitAtFence afterOpen with
    | none => none
    | some (inner, _) => some (stripLangTag inner)

/-- Modelled from the spec: `generate_blender_code` builds an ordered message
list — system prompt first, then each history entry in its original order,
then the new user message last — and sends it to the chat-completion API. -/
def build_messages (systemPrompt : String) (history : List ChatMessage)
    (userMessage : String) : List ChatMessage :=
  { type := "system", content := systemPrompt }
    :: history ++ [{ type := "user", content := userMessage }]

/-- Modelled from the spec: `generate_blender_code` sends `build_messages`
to the provider and parses the provider's textual response with
`extractCode`.  The provider's reply text is passed in explicitly. -/
def generate_blender_code (userMessage : String) (history : List ChatMessage)
    (systemPrompt : String) (providerResponse : String) : Option String :=
  let _ := build_messages systemPrompt history userMessage
  (extractCode providerResponse.toList).map (fun l => String.mk l)

example : generate_blender_code "u" [] "s" "before ```print(1)``` after"
    = some "print(1)" := by decide

/-- The add-on's system prompt (source lines 38–45), verbatim. -/
def system_prompt : String :=
  "You are an assistant made for Blender, the 3D software.\n" ++
  "Respond only with valid Python code inside triple backticks (```).\n" ++
  "Avoid destructive operations, do not add cameras or lights unless asked.\n" ++
  "Example:\n\nimport bpy\nbpy.ops.mesh.primitive_cube_add(location=(0,0,0))\n```"

/-- One `self.report({level}, message)` call: level is `'ERROR'` or `'INFO'`. -/
structure Report where
  level : String
  message : String
deriving DecidableEq, Repr

/-- The value an operator's `execute` returns. -/
inductive OpResult where
  | FINISHED
  | CANCELLED
deriving DecidableEq, Repr

/-- A Python global namespace, as a finite name → value map; values are left
abstract as strings.  `exec(code, globals().copy())` runs `code` against a
copy of such a namespace. -/
abbrev GlobalNS : Type := List (String × String)

/-- The host facilities the send operator uses: `exec` runs a code string in
a given global namespace and returns the (possibly mutated) namespace it was
handed together with either success or the raised exception's message. -/
structure ExecEnv where
  exec : String → GlobalNS → GlobalNS × Except String Unit

/-- The scene-attached properties the operators read and write, plus the
add-on module's own global namespace (the `globals()` of `__init__.py`). -/
structure SceneState where
  gpt4_chat_history : List ChatMessage
  gpt4_chat_input : String
  gpt4_button_pressed : Bool
  moduleGlobals : GlobalNS

/-- Everything observable about one run of the send operator: the final
state, the reports issued, the successive values written to the busy flag
`gpt4_button_pressed`, and the returned status. -/
structure ExecuteOutput where
  state : SceneState
  reports : List Report
  busyWrites : List Bool
  result : OpResult

/-- Shallow embedding of `GPT4_OT_Execute.execute` (source lines 99–132).
`providerResponse` is the text the chat-completion call answers with; the
busy flag is set (line 105), `generate_blender_code` is called on the chat
input and history (lines 108–113), the user turn is appended and the input
cleared (lines 115–118), then `if blender_code:` (line 120) — truthy only
for a present, non-empty string — decides whether the assistant turn is
appended and the code run by `exec` against a copy of the module globals,
an execution error being caught and reported (lines 121–127), or
"No code generated." is reported (line 129); finally the busy flag is
cleared (line 131) and `{'FINISHED'}` returned. -/
def GPT4_OT_Execute_execute (env : ExecEnv) (providerResponse : String)
    (st : SceneState) : ExecuteOutput :=
  let st1 : SceneState := { st with gpt4_button_pressed := true }
  let blender_code :=
    generate_blender_code st1.gpt4_chat_input st1.gpt4_chat_history
      system_prompt providerResponse
  let msg_user : ChatMessage := { type := "user", content := st1.gpt4_chat_input }
  let st2 : SceneState :=
    { st1 with
      gpt4_chat_history := st1.gpt4_chat_history ++ [msg_user]
      gpt4_chat_input := "" }
  -- the `else` branch of `if blender_code:` (source lines 128–129), reached
  -- both when no block was found (`None`) and when the extracted string is
  -- empty (Python falsiness of `""`)
  let noCodeOut : ExecuteOutput :=
    { state := { st2 with gpt4_button_pressed := false }
      reports := [{ level := "ERROR", message := "No code generated." }]
      busyWrites := [true, false]
      result := OpResult.FINISHED }
  match blender_code with
  | some code =>
    if code = "" then noCodeOut
    else
      let msg_ai : ChatMessage := { type := "assistant", content := code }
      let st3 : SceneState :=
        { st2 with gpt4_chat_history := st2.gpt4_chat_history ++ [msg_ai] }
      -- `exec(blender_code, globals().copy())`: the namespace handed to
      -- `exec` is a copy, so the mutated namespace it hands back is
      -- discarded and `moduleGlobals` keeps its old value.
      let reports :=
        match (env.exec code st3.moduleGlobals).2 with
        | Except.ok _ => []
        | Except.error e =>
          [{ level := "ERROR", message := "Execution error: " ++ e }]
      { state := { st3 with gpt4_button_pressed := false }
        reports := reports
        busyWrites := [true, false]
        result := OpResult.FINISHED }
  | none => noCodeOut

/-- Shallow embedding of `GPT4_OT_DeleteMessage.execute` (source lines
55–57): `context.scene.gpt4_chat_history.remove(self.message_index)`. -/
def GPT4_OT_DeleteMessage_execute (message_index : Nat) (st : SceneState) :
    SceneState × OpResult :=
  ({ st with gpt4_chat_history := st.gpt4_chat_history.eraseIdx message_index },
   OpResult.FINISHED)

/-- Shallow embedding of `GPT4_OT_ClearChat.execute` (source lines 87–89):
`context.scene.gpt4_chat_history.clear()`. -/
def GPT4_OT_ClearChat_execute (st : SceneState) : SceneState × OpResult :=
  ({ st with gpt4_chat_history := [] }, OpResult.FINISHED)

/-- The add-on preferences: the three credential strings. -/
structure Prefs where
  api_key : String
  project_id : String
  organization_id : String
deriving DecidableEq, Repr

/-- The provider interface the connection test uses: `client.models.list()`
for the given key / project / optional organization, returning the model
list or the raised exception's message. -/
structure Provider where
  listModels : String → String → Option String → Except String (List String)

/-- Everything observable about one run of the connection test: the final
preferences, the reports, whether the network call was attempted, whether
`bpy.ops.wm.save_userpref()` ran, and the returned status. -/
structure TestOutput where
  prefs : Prefs
  reports : List Report
  networkCalled : Bool
  savedUserpref : Bool
  result : OpResult
deriving DecidableEq, Repr

/-- Python's `str.strip()`: remove whitespace from both ends of a string. -/
def pyStrip (s : String) : String :=
  String.mk
    (((s.toList.dropWhile Char.isWhitespace).reverse.dropWhile
        Char.isWhitespace).reverse)

/-- Shallow embedding of `GPT4_OT_TestConnection.execute` (source lines
143–168): the three preference fields are stripped; with an empty key or
project the test reports an error and is cancelled before any client is
built; otherwise `models.list()` is called, and on success the stripped
credentials are written back to the preferences and saved and the model
count reported, while a raised exception is reported and the test
cancelled. -/
def GPT4_OT_TestConnection_execute (provider : Provider) (prefs : Prefs) :
    TestOutput :=
  let api_key := pyStrip prefs.api_key
  let project := pyStrip prefs.project_id
  let org := pyStrip prefs.organization_id
  if api_key = "" ∨ project = "" then
    { prefs := prefs
      reports := [{ level := "ERROR"
                    message := "❌ Please enter both API key and Project ID before testing." }]
      networkCalled := false
      savedUserpref := false
      result := OpResult.CANCELLED }
  else
    match provider.listModels api_key project (if org = "" then none else some org) with
    | Except.ok models =>
      { prefs := { api_key := api_key, project_id := project, organization_id := org }
        reports := [{ level := "INFO"
                      message := "✅ Connection successful! " ++ toString models.length
                        ++ " models available." }]
        networkCalled := true
        savedUserpref := true
        result := OpResult.FINISHED }
    | Except.error e =>
      { prefs := prefs
        reports := [{ level := "ERROR", message := "❌ Connection failed: " ++ e }]
        networkCalled := true
        savedUserpref := false
        result := OpResult.CANCELLED }

/-- A triple-backtick fence, as a character list. -/
def fence : List Char := [backtick, backtick, backtick]

/-!
## Chat-history operation language and its reference model

The three user actions that touch `gpt4_chat_history` are the send operator
(append), the per-message delete operator (remove by index) and the
clear-chat operator (clear all).  `uiStep` runs the embedded operators;
`refStep` is a reference model written from the spec's words.
-/

/-- One user action on the chat history, as the add-on implements it.  A
send carries the host facilities, the typed input and the provider's
response text. -/
inductive UIOp where
  | send (env : ExecEnv) (input : String) (response : String)
  | deleteMsg (i : Nat)
  | clearChat

/-- Run one user action through the embedded operators. -/
def uiStep (st : SceneState) : UIOp → SceneState
  | UIOp.send env input response =>
    (GPT4_OT_Execute_execute env response { st with gpt4_chat_input := input }).state
  | UIOp.deleteMsg i => (GPT4_OT_DeleteMessage_execute i st).1
  | UIOp.clearChat => (GPT4_OT_ClearChat_execute st).1

/-- Run a sequence of user actions through the embedded operators. -/
def uiRun : SceneState → List UIOp → SceneState := List.foldl uiStep

/-- Reference operations, following the spec: an ordered list with
append-at-end, remove-by-index, and clear-all semantics. -/
inductive RefOp where
  | appendEnd (m : ChatMessage)
  | removeIdx (i : Nat)
  | clearAll

/-- Reference semantics, written from the spec's words: append at the end,
remove the element at an index, clear the whole list. -/
def refStep (l : List ChatMessage) : RefOp → List ChatMessage
  | RefOp.appendEnd m => l ++ [m]
  | RefOp.removeIdx i => l.take i ++ l.drop (i + 1)
  | RefOp.clearAll => []

/-- Run a sequence of reference operations. -/
def refRun : List ChatMessage → List RefOp → List ChatMessage := List.foldl refStep

/-- What each user action means in the reference model: a send appends the
user turn and, when a non-empty fenced code block was extracted (Python's
`if blender_code:` is falsy on `None` and on the empty string alike), the
assistant turn; delete removes by index; clear clears. -/
def refOfUI : UIOp → List RefOp
  | UIOp.send _ input response =>
    RefOp.appendEnd { type := "user", content := input } ::
      (match (extractCode response.toList).map (fun l => String.mk l) with
       | some code =>
         if code = "" then []
         else [RefOp.appendEnd { type := "assistant", content := code }]
       | none => [])
  | UIOp.deleteMsg i => [RefOp.removeIdx i]
  | UIOp.clearChat => [RefOp.clearAll]

/-- Translate a whole action sequence into the reference model. -/
def refTranslate : List UIOp → List RefOp
  | [] => []
  | op :: ops => refOfUI op ++ refTranslate ops

/-- Every remove is given an index valid at the time of the remove. -/
def validOps : List ChatMessage → List UIOp → Bool
  | _, [] => true
  | l, op :: ops =>
    (match op with
     | UIOp.deleteMsg i => decide (i < l.length)
     | _ => true) && validOps (refRun l (refOfUI op)) ops

/-!
## Concrete fixtures used by the witnesses
-/

/-- A host environment whose `exec` always succeeds. -/
def envOk : ExecEnv := { exec := fun _ g => (g, Except.ok ()) }

/-- A host environment whose `exec` raises `name x is not defined`. -/
def envRaise : ExecEnv :=
  { exec := fun _ g => (g, Except.error "name x is not defined") }

/-- A scene with one prior turn, a typed message, and one module global. -/
def st0 : SceneState :=
  { gpt4_chat_history := [{ type := "user", content := "hello" }]
    gpt4_chat_input := "add a cube"
    gpt4_button_pressed := false
    moduleGlobals := [("bl_info", "meta")] }

/-- A concrete action sequence: two sends (one generating code, one not),
a valid delete, and a clear. -/
def ops0 : List UIOp :=
  [UIOp.send envOk "add a cube" "```x=1```",
   UIOp.deleteMsg 1,
   UIOp.send envRaise "again" "no code here",
   UIOp.clearChat]

/-- A provider with two visible models. -/
def provider2 : Provider :=
  { listModels := fun _ _ _ => Except.ok ["gpt-4", "gpt-4o"] }

/-- A provider whose model-listing call raises. -/
def providerDown : Provider :=
  { listModels := fun _ _ _ => Except.error "Connection error." }

/-- Preferences with all three fields filled (the key padded with blanks). -/
def prefsFull : Prefs :=
  { api_key := " sk-proj-abc ", project_id := "proj_1", organization_id := "org_1" }

/-- Preferences whose key is only whitespace. -/
def prefsNoKey : Prefs :=
  { api_key := "  ", project_id := "proj_1", organization_id := "" }

/-!
## Helper lemmas
-/

theorem startsWithFence_cons_false (a : Char) (l : List Char)
    (ha : ¬ a = backtick) : startsWithFence (a :: l) = false := by
  cases l with
  | nil => rfl
  | cons b l2 =>
    cases l2 with
    | nil => rfl
    | cons c l3 => simp [startsWithFence, ha]

theorem splitAtFence_of_no_backtick (pre rest : List Char)
    (h : backtick ∉ pre) :
    splitAtFence (pre ++ backtick :: backtick :: backtick :: rest)
      = some (pre, rest) := by
  induction pre with
  | nil => simp [splitAtFence, startsWithFence]
  | cons a pre ih =>
    have ha : ¬ a = backtick := fun hq => h (by simp [hq])
    have h2 : backtick ∉ pre := fun hm => h (by simp [hm])
    simp [splitAtFence, startsWithFence_cons_false _ _ ha, ih h2]

theorem splitAtFence_eq_none (l : List Char) (h : containsFence l = false) :
    splitAtFence l = none := by
  unfold containsFence at h
  cases hs : splitAtFence l with
  | none => rfl
  | some p => rw [hs] at h; simp at h

theorem extractCode_of_no_fence (l : List Char) (h : containsFence l = false) :
    extractCode l = none := by
  unfold extractCode
  rw [splitAtFence_eq_none l h]

theorem takeWhile_append_all (p : Char → Bool) (l1 l2 : List Char)
    (h : ∀ c ∈ l1, p c = true) :
    (l1 ++ l2).takeWhile p = l1 ++ l2.takeWhile p := by
  induction l1 with
  | nil => simp
  | cons a l ih =>
    have ha := h a (by simp)
    simp [List.takeWhile_cons, ha, ih (fun c hc => h c (by simp [hc]))]

theorem dropWhile_append_all (p : Char → Bool) (l1 l2 : List Char)
    (h : ∀ c ∈ l1, p c = true) :
    (l1 ++ l2).dropWhile p = l2.dropWhile p := by
  induction l1 with
  | nil => simp
  | cons a l ih =>
    have ha := h a (by simp)
    simp [List.dropWhile_cons, ha, ih (fun c hc => h c (by simp [hc]))]

theorem isAlpha_ne_newline (c : Char) (h : c.isAlpha = true) : ¬ c = '\n' := by
  intro he
  rw [he] at h
  simp [Char.isAlpha, Char.isUpper, Char.isLower] at h

theorem stripLangTag_of_no_tag (l : List Char) (h : hasLangTag l = false) :
    stripLangTag l = l := by
  simp [stripLangTag, h]

theorem stripLangTag_tag_line (tag inner : List Char)
    (hne : tag ≠ []) (halpha : tag.all Char.isAlpha = true) :
    stripLangTag (tag ++ '\n' :: inner) = inner := by
  have hall : ∀ c ∈ tag, (fun c => decide (¬ c = '\n')) c = true := by
    intro c hc
    simp only [decide_eq_true_eq]
    exact isAlpha_ne_newline c (by
      have := List.all_eq_true.mp halpha c hc
      simpa using this)
  have hfl : firstLine (tag ++ '\n' :: inner) = tag := by
    unfold firstLine
    rw [takeWhile_append_all _ _ _ hall]
    simp [List.takeWhile_cons]
  have hafl : afterFirstLine (tag ++ '\n' :: inner) = '\n' :: inner := by
    unfold afterFirstLine
    rw [dropWhile_append_all _ _ _ hall]
    simp [List.dropWhile_cons]
  have htag : hasLangTag (tag ++ '\n' :: inner) = true := by
    unfold hasLangTag
    rw [hfl, hafl]
    simp [hne, halpha]
  unfold stripLangTag
  rw [htag, hafl]
  simp

theorem extractCode_fenced (pre body post : List Char)
    (hpre : backtick ∉ pre) (hbody : backtick ∉ body) :
    extractCode (pre ++ fence ++ body ++ fence ++ post)
      = some (stripLangTag body) := by
  have h1 := splitAtFence_of_no_backtick pre
    (body ++ backtick :: backtick :: backtick :: post) hpre
  have h2 := splitAtFence_of_no_backtick body post hbody
  unfold extractCode
  simp only [fence, List.append_assoc, List.cons_append, List.nil_append]
  simp [h1, h2]

/-- **C1**: for every provider response, `generate` returns the inner text of
the first fenced code block — triple backticks and an optional leading
language tag such as `python` stripped — and in particular returns exactly
`print(1)` for a response whose single fenced block holds `print(1)`. -/
theorem generate_returns_first_fenced_block
    (pre inner post tag : List Char) (umsg sp resp : String)
    (hist : List ChatMessage)
    (hpre : backtick ∉ pre) (hinner : backtick ∉ inner)
    (hnotag : hasLangTag inner = false)
    (htagne : tag ≠ []) (htag : tag.all Char.isAlpha = true) :
    extractCode (pre ++ fence ++ inner ++ fence ++ post) = some inner
    ∧ extractCode (pre ++ fence ++ (tag ++ '\n' :: inner) ++ fence ++ post)
        = some inner
    ∧ generate_blender_code umsg hist sp resp
        = (extractCode resp.toList).map (fun l => String.mk l)
    ∧ generate_blender_code umsg hist sp "```print(1)```" = some "print(1)" := by
  refine ⟨?_, ?_, rfl, rfl⟩
  · rw [extractCode_fenced pre inner post hpre hinner,
      stripLangTag_of_no_tag inner hnotag]
  · have hb : backtick ∉ tag ++ '\n' :: inner := by
      intro hm
      rcases List.mem_append.mp hm with h | h
      · have halpha := List.all_eq_true.mp htag backtick h
        exact absurd halpha (by decide)
      · rcases List.mem_cons.mp h with h | h
        · exact absurd h.symm (by decide)
        · exact hinner h
    rw [extractCode_fenced pre _ post hpre hb,
      stripLangTag_tag_line tag inner htagne htag]

theorem generate_returns_first_fenced_block_witness :
    extractCode (['a']
        ++ fence ++ ['p','r','i','n','t','(','1',')'] ++ fence ++ ['z'])
      = some ['p','r','i','n','t','(','1',')']
    ∧ extractCode (['a'] ++ fence
        ++ (['p','y'] ++ '\n' :: ['p','r','i','n','t','(','1',')'])
        ++ fence ++ ['z'])
      = some ['p','r','i','n','t','(','1',')']
    ∧ generate_blender_code "u" [] "s" "r"
        = (extractCode "r".toList).map (fun l => String.mk l)
    ∧ generate_blender_code "u" [] "s" "```print(1)```" = some "print(1)" :=
  generate_returns_first_fenced_block ['a'] ['p','r','i','n','t','(','1',')']
    ['z'] ['p','y'] "u" "s" "r" []
    (by decide) (by decide) (by decide) (by decide) (by decide)

/-- **C2**: for every provider response with no triple-backtick block,
`generate` returns nothing, the send operator reports "No code generated.",
no assistant entry is appended for that turn, the user message is still
appended, and the operator finishes normally. -/
theorem send_with_no_fenced_block
    (env : ExecEnv) (st : SceneState) (response : String)
    (h : containsFence response.toList = false) :
    generate_blender_code st.gpt4_chat_input st.gpt4_chat_history
        system_prompt response = none
    ∧ (GPT4_OT_Execute_execute env response st).reports
        = [{ level := "ERROR", message := "No code generated." }]
    ∧ (GPT4_OT_Execute_execute env response st).state.gpt4_chat_history
        = st.gpt4_chat_history
            ++ [{ type := "user", content := st.gpt4_chat_input }]
    ∧ (GPT4_OT_Execute_execute env response st).result = OpResult.FINISHED := by
  have hn : extractCode response.data = none :=
    extractCode_of_no_fence response.toList h
  refine ⟨?_, ?_, ?_, ?_⟩ <;>
    simp [generate_blender_code, GPT4_OT_Execute_execute, hn]

theorem send_with_no_fenced_block_witness :
    generate_blender_code st0.gpt4_chat_input st0.gpt4_chat_history
        system_prompt "plain text" = none
    ∧ (GPT4_OT_Execute_execute envOk "plain text" st0).reports
        = [{ level := "ERROR", message := "No code generated." }]
    ∧ (GPT4_OT_Execute_execute envOk "plain text" st0).state.gpt4_chat_history
        = st0.gpt4_chat_history
            ++ [{ type := "user", content := st0.gpt4_chat_input }]
    ∧ (GPT4_OT_Execute_execute envOk "plain text" st0).result
        = OpResult.FINISHED :=
  send_with_no_fenced_block envOk st0 "plain text" (by decide)

theorem execute_result_eq_FINISHED (env : ExecEnv) (response : String)
    (st : SceneState) :
    (GPT4_OT_Execute_execute env response st).result = OpResult.FINISHED := by
  simp only [GPT4_OT_Execute_execute, generate_blender_code, String.toList]
  cases hx : extractCode response.data with
  | none => simp [hx]
  | some val => by_cases hv : String.mk val = "" <;> simp [hx, hv]

/-- **C3**: a runtime fault in the generated code is caught: the send
operator reports `Execution error: <message>`, still returns `FINISHED`,
leaves the module-level globals untouched (the code ran against a copy),
and a subsequent invocation of the operator still succeeds.  Code reaches
`exec` only when `if blender_code:` is truthy, i.e. the extracted string is
non-empty, which the `hne` hypothesis captures. -/
theorem execute_error_caught
    (env : ExecEnv) (st : SceneState) (response code e : String)
    (hgen : generate_blender_code st.gpt4_chat_input st.gpt4_chat_history
        system_prompt response = some code)
    (hne : ¬ code = "")
    (hexec : (env.exec code st.moduleGlobals).2 = Except.error e) :
    (GPT4_OT_Execute_execute env response st).reports
        = [{ level := "ERROR", message := "Execution error: " ++ e }]
    ∧ (GPT4_OT_Execute_execute env response st).result = OpResult.FINISHED
    ∧ (GPT4_OT_Execute_execute env response st).state.moduleGlobals
        = st.moduleGlobals
    ∧ ∀ (env2 : ExecEnv) (response2 : String),
        (GPT4_OT_Execute_execute env2 response2
            (GPT4_OT_Execute_execute env response st).state).result
          = OpResult.FINISHED := by
  refine ⟨?_, execute_result_eq_FINISHED env response st, ?_,
    fun env2 r2 => execute_result_eq_FINISHED env2 r2 _⟩ <;>
    simp [GPT4_OT_Execute_execute, hgen, hne, hexec]

theorem execute_error_caught_witness :
    (GPT4_OT_Execute_execute envRaise "```x=1```" st0).reports
        = [{ level := "ERROR",
             message := "Execution error: " ++ "name x is not defined" }]
    ∧ (GPT4_OT_Execute_execute envRaise "```x=1```" st0).result
        = OpResult.FINISHED
    ∧ (GPT4_OT_Execute_execute envRaise "```x=1```" st0).state.moduleGlobals
        = st0.moduleGlobals
    ∧ (GPT4_OT_Execute_execute envOk "r2"
          (GPT4_OT_Execute_execute envRaise "```x=1```" st0).state).result
        = OpResult.FINISHED := by
  have h := execute_error_caught envRaise st0 "```x=1```" "x=1"
    "name x is not defined" (by decide) (by decide) rfl
  exact ⟨h.1, h.2.1, h.2.2.1, h.2.2.2 envOk "r2"⟩

/-- **C5**: the message list sent to the chat-completion interface is
ordered with the system prompt first, then each history entry in its
original order, then the new user message last. -/
theorem build_messages_ordering (sp u : String) (hist : List ChatMessage) :
    (build_messages sp hist u).head? = some { type := "system", content := sp }
    ∧ (build_messages sp hist u).getLast? = some { type := "user", content := u }
    ∧ ((build_messages sp hist u).drop 1).dropLast = hist
    ∧ (build_messages sp hist u).length = hist.length + 2 := by
  refine ⟨rfl, ?_, ?_, by simp [build_messages]⟩
  · show (({ type := "system", content := sp } : ChatMessage)
        :: (hist ++ [{ type := "user", content := u }])).getLast? = _
    rw [← List.cons_append]
    exact List.getLast?_concat _
  · show (hist ++ [({ type := "user", content := u } : ChatMessage)]).dropLast
        = hist
    exact List.dropLast_concat

/-- **C8**: every send sets the busy flag at the start and clears it by the
time it returns, on the generated, empty-generation and execution-error
paths alike, and always returns `FINISHED`. -/
theorem send_busy_flag_protocol (env : ExecEnv) (response : String)
    (st : SceneState) :
    (GPT4_OT_Execute_execute env response st).busyWrites = [true, false]
    ∧ (GPT4_OT_Execute_execute env response st).state.gpt4_button_pressed
        = false
    ∧ (GPT4_OT_Execute_execute env response st).result = OpResult.FINISHED := by
  refine ⟨?_, ?_, execute_result_eq_FINISHED env response st⟩ <;>
    (simp only [GPT4_OT_Execute_execute, generate_blender_code, String.toList]
     cases hx : extractCode response.data with
     | none => simp [hx]
     | some val => by_cases hv : String.mk val = "" <;> simp [hx, hv])

/-- **C9**: after every send, the chat input field is the empty string,
whether or not code was generated and whether or not it executed cleanly. -/
theorem send_clears_chat_input (env : ExecEnv) (response : String)
    (st : SceneState) :
    (GPT4_OT_Execute_execute env response st).state.gpt4_chat_input = "" := by
  simp only [GPT4_OT_Execute_execute, generate_blender_code, String.toList]
  cases hx : extractCode response.data with
  | none => simp [hx]
  | some val => by_cases hv : String.mk val = "" <;> simp [hx, hv]

/-- **C6**: with an empty (stripped) API key or project id, the connection
test reports a configuration error and is cancelled, no network call is
attempted, and nothing is persisted. -/
theorem test_connection_empty_credentials
    (provider : Provider) (prefs : Prefs)
    (h : pyStrip prefs.api_key = "" ∨ pyStrip prefs.project_id = "") :
    (GPT4_OT_TestConnection_execute provider prefs).result = OpResult.CANCELLED
    ∧ (GPT4_OT_TestConnection_execute provider prefs).networkCalled = false
    ∧ (GPT4_OT_TestConnection_execute provider prefs).savedUserpref = false
    ∧ (GPT4_OT_TestConnection_execute provider prefs).prefs = prefs
    ∧ (GPT4_OT_TestConnection_execute provider prefs).reports
        = [{ level := "ERROR",
             message := "❌ Please enter both API key and Project ID before testing." }] := by
  simp only [GPT4_OT_TestConnection_execute]
  rw [if_pos h]
  exact ⟨rfl, rfl, rfl, rfl, rfl⟩

theorem test_connection_empty_credentials_witness :
    (GPT4_OT_TestConnection_execute provider2 prefsNoKey).result
        = OpResult.CANCELLED
    ∧ (GPT4_OT_TestConnection_execute provider2 prefsNoKey).networkCalled = false
    ∧ (GPT4_OT_TestConnection_execute provider2 prefsNoKey).savedUserpref = false
    ∧ (GPT4_OT_TestConnection_execute provider2 prefsNoKey).prefs = prefsNoKey
    ∧ (GPT4_OT_TestConnection_execute provider2 prefsNoKey).reports
        = [{ level := "ERROR",
             message := "❌ Please enter both API key and Project ID before testing." }] :=
  test_connection_empty_credentials provider2 prefsNoKey (Or.inl (by decide))

/-- **C7**: when the model-listing call succeeds, the connection test
persists all three stripped credential fields together, saves the
preferences, and reports the count of visible models. -/
theorem test_connection_success_persists
    (provider : Provider) (prefs : Prefs) (models : List String)
    (hk : ¬ pyStrip prefs.api_key = "") (hp : ¬ pyStrip prefs.project_id = "")
    (hcall : provider.listModels (pyStrip prefs.api_key) (pyStrip prefs.project_id)
        (if pyStrip prefs.organization_id = "" then none
         else some (pyStrip prefs.organization_id)) = Except.ok models) :
    (GPT4_OT_TestConnection_execute provider prefs).prefs
        = { api_key := pyStrip prefs.api_key
            project_id := pyStrip prefs.project_id
            organization_id := pyStrip prefs.organization_id }
    ∧ (GPT4_OT_TestConnection_execute provider prefs).savedUserpref = true
    ∧ (GPT4_OT_TestConnection_execute provider prefs).reports
        = [{ level := "INFO"
             message := "✅ Connection successful! " ++ toString models.length
               ++ " models available." }]
    ∧ (GPT4_OT_TestConnection_execute provider prefs).result
        = OpResult.FINISHED := by
  simp only [GPT4_OT_TestConnection_execute]
  rw [if_neg (not_or.mpr ⟨hk, hp⟩), hcall]
  exact ⟨rfl, rfl, rfl, rfl⟩

theorem test_connection_success_persists_witness :
    (GPT4_OT_TestConnection_execute provider2 prefsFull).prefs
        = { api_key := pyStrip prefsFull.api_key
            project_id := pyStrip prefsFull.project_id
            organization_id := pyStrip prefsFull.organization_id }
    ∧ (GPT4_OT_TestConnection_execute provider2 prefsFull).savedUserpref = true
    ∧ (GPT4_OT_TestConnection_execute provider2 prefsFull).reports
        = [{ level := "INFO"
             message := "✅ Connection successful! "
               ++ toString (["gpt-4", "gpt-4o"] : List String).length
               ++ " models available." }]
    ∧ (GPT4_OT_TestConnection_execute provider2 prefsFull).result
        = OpResult.FINISHED :=
  test_connection_success_persists provider2 prefsFull ["gpt-4", "gpt-4o"]
    (by decide) (by decide) rfl

/-- **C10**: when the model-listing call raises, the connection test reports
the failure and is cancelled with the stored credentials unchanged and no
save of the preferences performed. -/
theorem test_connection_provider_error_atomic
    (provider : Provider) (prefs : Prefs) (e : String)
    (hk : ¬ pyStrip prefs.api_key = "") (hp : ¬ pyStrip prefs.project_id = "")
    (hcall : provider.listModels (pyStrip prefs.api_key) (pyStrip prefs.project_id)
        (if pyStrip prefs.organization_id = "" then none
         else some (pyStrip prefs.organization_id)) = Except.error e) :
    (GPT4_OT_TestConnection_execute provider prefs).prefs = prefs
    ∧ (GPT4_OT_TestConnection_execute provider prefs).savedUserpref = false
    ∧ (GPT4_OT_TestConnection_execute provider prefs).result
        = OpResult.CANCELLED
    ∧ (GPT4_OT_TestConnection_execute provider prefs).reports
        = [{ level := "ERROR", message := "❌ Connection failed: " ++ e }] := by
  simp only [GPT4_OT_TestConnection_execute]
  rw [if_neg (not_or.mpr ⟨hk, hp⟩), hcall]
  exact ⟨rfl, rfl, rfl, rfl⟩

theorem test_connection_provider_error_atomic_witness :
    (GPT4_OT_TestConnection_execute providerDown prefsFull).prefs = prefsFull
    ∧ (GPT4_OT_TestConnection_execute providerDown prefsFull).savedUserpref
        = false
    ∧ (GPT4_OT_TestConnection_execute providerDown prefsFull).result
        = OpResult.CANCELLED
    ∧ (GPT4_OT_TestConnection_execute providerDown prefsFull).reports
        = [{ level := "ERROR"
             message := "❌ Connection failed: " ++ "Connection error." }] :=
  test_connection_provider_error_atomic providerDown prefsFull
    "Connection error." (by decide) (by decide) rfl

theorem uiStep_history (st : SceneState) (op : UIOp) :
    (uiStep st op).gpt4_chat_history
      = refRun st.gpt4_chat_history (refOfUI op) := by
  cases op with
  | send env input response =>
    simp only [uiStep, GPT4_OT_Execute_execute, generate_blender_code,
      String.toList, refOfUI]
    cases hx : extractCode response.data with
    | none => simp [hx, refRun, refStep]
    | some val =>
      by_cases hv : String.mk val = "" <;> simp [hx, hv, refRun, refStep]
  | deleteMsg i =>
    simp [uiStep, GPT4_OT_DeleteMessage_execute, refOfUI, refRun, refStep,
      List.eraseIdx_eq_take_drop_succ]
  | clearChat =>
    simp [uiStep, GPT4_OT_ClearChat_execute, refOfUI, refRun, refStep]

theorem uiRun_history (ops : List UIOp) : ∀ st : SceneState,
    (uiRun st ops).gpt4_chat_history
      = refRun st.gpt4_chat_history (refTranslate ops) := by
  induction ops with
  | nil => intro st; rfl
  | cons op ops ih =>
    intro st
    show (uiRun (uiStep st op) ops).gpt4_chat_history
      = refRun st.gpt4_chat_history (refOfUI op ++ refTranslate ops)
    rw [ih (uiStep st op), uiStep_history st op]
    simp [refRun, List.foldl_append]

/-- **C4**: any finite sequence of send / delete-message / clear-chat
actions leaves the chat history with exactly the length and element order
of the reference ordered-list model (append-at-end, remove-by-index,
clear-all), provided every remove is given an index that is valid when the
remove happens. -/
theorem chat_history_matches_list_model (st : SceneState) (ops : List UIOp)
    (_h : validOps st.gpt4_chat_history ops = true) :
    (uiRun st ops).gpt4_chat_history
        = refRun st.gpt4_chat_history (refTranslate ops)
    ∧ (uiRun st ops).gpt4_chat_history.length
        = (refRun st.gpt4_chat_history (refTranslate ops)).length := by
  have hs := uiRun_history ops st
  exact ⟨hs, by rw [hs]⟩

theorem chat_history_matches_list_model_witness :
    (uiRun st0 ops0).gpt4_chat_history
        = refRun st0.gpt4_chat_history (refTranslate ops0)
    ∧ (uiRun st0 ops0).gpt4_chat_history.length
        = (refRun st0.gpt4_chat_history (refTranslate ops0)).length :=
  chat_history_matches_list_model st0 ops0 (by rfl)
